import Mathlib

/-!
Shallow embedding of the wind-derivation engine of the
zennora-signalk-weatherflow repository (src/windCalculations.js).

Numbers are modelled as real numbers; JavaScript nullable fields are
modelled as Option values; JavaScript truthiness tests (the ternary on
courseOverGroundMagnetic and the binary or fallbacks) are modelled
explicitly: a numeric value is falsy exactly when it is 0, and a missing
value (null or undefined) is falsy.  The wall-clock timestamp taken at
the top of calculateDerivedWindValues is modelled as an extra input.
-/

namespace WindCalculations

/-- State held by the WindCalculations class: the latest navigation and
environment values, mirroring the constructor fields of the source. -/
structure VesselState where
  headingTrue : ℝ
  headingMagnetic : ℝ
  courseOverGroundMagnetic : Option ℝ
  speedOverGround : ℝ
  airTemp : ℝ
  humidity : ℝ
  anchorSet : Bool
  anchorApparentBearing : ℝ

/-- Raw wind sample passed to calculateApparentWind: windDirection in
degrees, windSpeed in metres per second, and an optional airTemperature
(the source reads windData.airTemperature with a truthiness fallback). -/
structure WindData where
  windDirection : ℝ
  windSpeed : ℝ
  airTemperature : Option ℝ

/-- Record returned by calculateApparentWind, field for field.  The
windAngleRelativeRad field is an Option because calculateDerivedWindValues
tests it with a JavaScript truthiness check, so a caller bypassing the
resolver may omit it. -/
structure ApparentWind where
  windSpeed : ℝ
  windAngleRelative : ℝ
  windAngleRelativeRad : Option ℝ
  apparentTrueDeg : ℝ
  apparentMagneticDeg : ℝ
  apparentTrueRad : ℝ
  apparentMagneticRad : ℝ
  airTemperature : ℝ

/-- Record returned by calculateDerivedWindValues, field for field. -/
structure DerivedWind where
  speedApparent : ℝ
  angleApparent : ℝ
  angleTrueGround : ℝ
  angleTrueWater : ℝ
  directionTrue : ℝ
  directionMagnetic : ℝ
  speedTrue : ℝ
  windChill : Option ℝ
  heatIndex : Option ℝ
  feelsLike : ℝ
  timestamp : String
  source : String

/-- Helper degToRad of the source. -/
noncomputable def degToRad (deg : ℝ) : ℝ := deg * Real.pi / 180

/-- Helper radToDeg of the source. -/
noncomputable def radToDeg (rad : ℝ) : ℝ := rad * 180 / Real.pi

/-- Truncation toward zero, as the JavaScript remainder operator uses. -/
noncomputable def jsTrunc (x : ℝ) : ℤ := if 0 ≤ x then ⌊x⌋ else ⌈x⌉

/-- The JavaScript remainder operator on real numbers:
a % b = a - b * trunc (a / b). -/
noncomputable def jsMod (a b : ℝ) : ℝ := a - b * (jsTrunc (a / b) : ℝ)

/-- JavaScript binary or between a possibly missing number and a number:
the left operand is kept exactly when it is present and nonzero. -/
noncomputable def jsOrReal (x : Option ℝ) (y : ℝ) : ℝ :=
  match x with
  | some v => if v = 0 then y else v
  | none => y

/-- First loop of normalizeAngle: while the angle exceeds pi, subtract
two pi.  Defined by well-founded recursion on the number of iterations. -/
noncomputable def subLoop (a : ℝ) : ℝ :=
  if h : Real.pi < a then subLoop (a - 2 * Real.pi) else a
termination_by (⌈(a - Real.pi) / (2 * Real.pi)⌉).toNat
decreasing_by
  have h2 : (0:ℝ) < 2 * Real.pi := by positivity
  have hne : (2 * Real.pi) ≠ 0 := ne_of_gt h2
  have hx : (a - 2 * Real.pi - Real.pi) / (2 * Real.pi)
      = (a - Real.pi) / (2 * Real.pi) - 1 := by
    field_simp
    ring
  have hpos : (0:ℝ) < (a - Real.pi) / (2 * Real.pi) :=
    div_pos (by linarith) h2
  have hceil : 0 < ⌈(a - Real.pi) / (2 * Real.pi)⌉ := Int.ceil_pos.mpr hpos
  rw [hx, Int.ceil_sub_one]
  omega

/-- Second loop of normalizeAngle: while the angle is below minus pi, add
two pi. -/
noncomputable def addLoop (a : ℝ) : ℝ :=
  if h : a < -Real.pi then addLoop (a + 2 * Real.pi) else a
termination_by (⌈(-Real.pi - a) / (2 * Real.pi)⌉).toNat
decreasing_by
  have h2 : (0:ℝ) < 2 * Real.pi := by positivity
  have hne : (2 * Real.pi) ≠ 0 := ne_of_gt h2
  have hx : (-Real.pi - (a + 2 * Real.pi)) / (2 * Real.pi)
      = (-Real.pi - a) / (2 * Real.pi) - 1 := by
    field_simp
    ring
  have hpos : (0:ℝ) < (-Real.pi - a) / (2 * Real.pi) :=
    div_pos (by linarith) h2
  have hceil : 0 < ⌈(-Real.pi - a) / (2 * Real.pi)⌉ := Int.ceil_pos.mpr hpos
  rw [hx, Int.ceil_sub_one]
  omega

/-- Helper normalizeAngle of the source: the two sequential while loops. -/
noncomputable def normalizeAngle (angle : ℝ) : ℝ := addLoop (subLoop angle)

/-- Helper toCompassBearing of the source. -/
noncomputable def toCompassBearing (radians : ℝ) : ℝ :=
  if radians < 0 then radians + 2 * Real.pi else radians

/-- JavaScript Math.atan2, modelled as the argument of the complex number
with the given real and imaginary parts (range minus pi exclusive to pi
inclusive, and 0 at the origin, matching atan2 on real inputs). -/
noncomputable def atan2 (y x : ℝ) : ℝ :=
  Complex.arg ((x : ℂ) + (y : ℂ) * Complex.I)

/-- Local const courseOverGroundMagneticDeg of calculateApparentWind.
The source computes it with a truthiness test on courseOverGroundMagnetic
(null and 0 both fall back to headingMagnetic in degrees), and then never
uses it anywhere in the function. -/
noncomputable def courseOverGroundMagneticDeg (s : VesselState) : ℝ :=
  match s.courseOverGroundMagnetic with
  | some v => if v = 0 then radToDeg s.headingMagnetic else radToDeg v
  | none => radToDeg s.headingMagnetic

/-- Method calculateApparentWind of the source, line for line.  The local
courseOverGroundMagneticDeg is computed but dead; both compass bearings
are built from headingTrue and headingMagnetic only. -/
noncomputable def calculateApparentWind (s : VesselState) (w : WindData) :
    ApparentWind :=
  ApparentWind.mk
    w.windSpeed
    w.windDirection
    (some (degToRad w.windDirection))
    (jsMod (radToDeg s.headingTrue + w.windDirection) 360)
    (jsMod (radToDeg s.headingMagnetic + w.windDirection) 360)
    (degToRad (jsMod (radToDeg s.headingTrue + w.windDirection) 360))
    (degToRad (jsMod (radToDeg s.headingMagnetic + w.windDirection) 360))
    (jsOrReal w.airTemperature s.airTemp)

/-- Local let useDirection of calculateDerivedWindValues: the heading the
comment says should be used for calculations, preferring a non-null
courseOverGroundMagnetic.  The source computes it and then never reads
it again. -/
def useDirection (s : VesselState) : ℝ :=
  match s.courseOverGroundMagnetic with
  | some v => v
  | none => s.headingMagnetic

/-- Local const effectiveHeadingTrueRad of calculateDerivedWindValues. -/
def effectiveHeadingTrueRad (s : VesselState) : ℝ :=
  if s.anchorSet then s.anchorApparentBearing else s.headingTrue

/-- Local const effectiveHeadingMagneticRad of calculateDerivedWindValues. -/
def effectiveHeadingMagneticRad (s : VesselState) : ℝ :=
  if s.anchorSet then s.anchorApparentBearing else s.headingMagnetic

/-- Local const angleApparent: normalizeAngle of the supplied relative
angle, with a JavaScript truthiness fallback to the difference between
the true-frame bearing and the effective true heading. -/
noncomputable def angleApparent (s : VesselState) (a : ApparentWind) : ℝ :=
  normalizeAngle (jsOrReal a.windAngleRelativeRad
    (a.apparentTrueRad - effectiveHeadingTrueRad s))

/-- Local const effectiveSOG: zero when anchored. -/
def effectiveSOG (s : VesselState) : ℝ :=
  if s.anchorSet then 0 else s.speedOverGround

/-- Local const Vx. -/
noncomputable def Vx (s : VesselState) : ℝ :=
  effectiveSOG s * Real.cos (effectiveHeadingTrueRad s)

/-- Local const Vy. -/
noncomputable def Vy (s : VesselState) : ℝ :=
  effectiveSOG s * Real.sin (effectiveHeadingTrueRad s)

/-- Local const Ax. -/
noncomputable def Ax (a : ApparentWind) : ℝ :=
  a.windSpeed * Real.cos a.apparentTrueRad

/-- Local const Ay. -/
noncomputable def Ay (a : ApparentWind) : ℝ :=
  a.windSpeed * Real.sin a.apparentTrueRad

/-- Local const Wx. -/
noncomputable def Wx (s : VesselState) (a : ApparentWind) : ℝ := Ax a + Vx s

/-- Local const Wy. -/
noncomputable def Wy (s : VesselState) (a : ApparentWind) : ℝ := Ay a + Vy s

/-- Local const trueWindSpeed. -/
noncomputable def trueWindSpeed (s : VesselState) (a : ApparentWind) : ℝ :=
  Real.sqrt (Wx s a * Wx s a + Wy s a * Wy s a)

/-- Local const rawTrueDirection. -/
noncomputable def rawTrueDirection (s : VesselState) (a : ApparentWind) : ℝ :=
  atan2 (Wy s a) (Wx s a)

/-- Local const trueWindDirTrueRad. -/
noncomputable def trueWindDirTrueRad (s : VesselState) (a : ApparentWind) : ℝ :=
  toCompassBearing (rawTrueDirection s a)

/-- Local const angleTrueGround. -/
noncomputable def angleTrueGround (s : VesselState) (a : ApparentWind) : ℝ :=
  normalizeAngle (trueWindDirTrueRad s a - effectiveHeadingTrueRad s)

/-- Local const VxMag. -/
noncomputable def VxMag (s : VesselState) : ℝ :=
  effectiveSOG s * Real.cos (effectiveHeadingMagneticRad s)

/-- Local const VyMag. -/
noncomputable def VyMag (s : VesselState) : ℝ :=
  effectiveSOG s * Real.sin (effectiveHeadingMagneticRad s)

/-- Local const AxMag. -/
noncomputable def AxMag (a : ApparentWind) : ℝ :=
  a.windSpeed * Real.cos a.apparentMagneticRad

/-- Local const AyMag. -/
noncomputable def AyMag (a : ApparentWind) : ℝ :=
  a.windSpeed * Real.sin a.apparentMagneticRad

/-- Local const WxMag. -/
noncomputable def WxMag (s : VesselState) (a : ApparentWind) : ℝ :=
  AxMag a + VxMag s

/-- Local const WyMag. -/
noncomputable def WyMag (s : VesselState) (a : ApparentWind) : ℝ :=
  AyMag a + VyMag s

/-- Local const rawMagneticDirection. -/
noncomputable def rawMagneticDirection (s : VesselState) (a : ApparentWind) :
    ℝ :=
  atan2 (WyMag s a) (WxMag s a)

/-- Local const trueWindDirMagRad. -/
noncomputable def trueWindDirMagRad (s : VesselState) (a : ApparentWind) : ℝ :=
  toCompassBearing (rawMagneticDirection s a)

/-- Local const angleTrueWater. -/
noncomputable def angleTrueWater (s : VesselState) (a : ApparentWind) : ℝ :=
  normalizeAngle (trueWindDirMagRad s a - effectiveHeadingMagneticRad s)

/-- Local const airTempC: the tracked air temperature in Celsius. -/
noncomputable def airTempC (s : VesselState) : ℝ := s.airTemp - 273.15

/-- Local const windSpeedKmh. -/
noncomputable def windSpeedKmh (s : VesselState) (a : ApparentWind) : ℝ :=
  trueWindSpeed s a * 3.6

/-- Local windChillK: present exactly inside the guard, null outside. -/
noncomputable def windChillK (s : VesselState) (a : ApparentWind) : Option ℝ :=
  if airTempC s ≤ 10 ∧ windSpeedKmh s a > 4.8 then
    some (13.12 + 0.6215 * airTempC s
      - 11.37 * Real.rpow (windSpeedKmh s a) 0.16
      + 0.3965 * airTempC s * Real.rpow (windSpeedKmh s a) 0.16 + 273.15)
  else none

/-- Local const airTempF. -/
noncomputable def airTempF (s : VesselState) : ℝ := airTempC s * 9 / 5 + 32

/-- Local heatIndexK: present exactly inside the guard, null outside. -/
noncomputable def heatIndexK (s : VesselState) : Option ℝ :=
  if airTempF s ≥ 80 ∧ s.humidity ≥ 40 then
    some ((-42.379 + 2.04901523 * airTempF s + 10.14333127 * s.humidity
      - 0.22475541 * airTempF s * s.humidity
      - 0.00683783 * airTempF s * airTempF s
      - 0.05481717 * s.humidity * s.humidity
      + 0.00122874 * airTempF s * airTempF s * s.humidity
      + 0.00085282 * airTempF s * s.humidity * s.humidity
      - 0.00000199 * airTempF s * airTempF s * s.humidity * s.humidity
      - 32) * 5 / 9 + 273.15)
  else none

/-- Local feelsLikeK: starts as the raw tracked temperature, replaced by
wind chill or heat index under the source conditions. -/
noncomputable def feelsLikeK (s : VesselState) (a : ApparentWind) : ℝ :=
  if (windChillK s a).isSome ∧ airTempC s ≤ 10 then
    (windChillK s a).getD s.airTemp
  else if (heatIndexK s).isSome ∧ airTempC s ≥ 27 then
    (heatIndexK s).getD s.airTemp
  else s.airTemp

/-- Method calculateDerivedWindValues of the source.  The wall-clock
timestamp string taken at the top of the method is passed in as an
explicit input; the source tag is the fixed string of the source.  The
local useDirection is computed by the source and never used. -/
noncomputable def calculateDerivedWindValues (s : VesselState)
    (a : ApparentWind) (timestamp : String) : DerivedWind :=
  DerivedWind.mk
    a.windSpeed
    (angleApparent s a)
    (angleTrueGround s a)
    (angleTrueWater s a)
    (trueWindDirTrueRad s a)
    (trueWindDirMagRad s a)
    (trueWindSpeed s a)
    (windChillK s a)
    (heatIndexK s)
    (feelsLikeK s a)
    timestamp
    "mqtt-weatherflow-derived"

/-- Step-indexed version of the first while loop of normalizeAngle, used
to state termination: with enough fuel it returns the final value of the
loop, and with too little fuel it returns none. -/
noncomputable def subLoopFuel : Nat → ℝ → Option ℝ
  | 0, a => if Real.pi < a then none else some a
  | n + 1, a =>
      if Real.pi < a then subLoopFuel n (a - 2 * Real.pi) else some a

/-- Step-indexed version of the second while loop of normalizeAngle. -/
noncomputable def addLoopFuel : Nat → ℝ → Option ℝ
  | 0, a => if a < -Real.pi then none else some a
  | n + 1, a =>
      if a < -Real.pi then addLoopFuel n (a + 2 * Real.pi) else some a

/-- Step-indexed normalizeAngle: run the first loop with fuel n, then the
second with fuel m. -/
noncomputable def normalizeAngleFuel (n m : Nat) (a : ℝ) : Option ℝ :=
  (subLoopFuel n a).bind fun b => addLoopFuel m b

lemma subLoop_of_gt (a : ℝ) (h : Real.pi < a) :
    subLoop a = subLoop (a - 2 * Real.pi) := by
  rw [subLoop]
  simp [h]

lemma subLoop_of_le (a : ℝ) (h : ¬ Real.pi < a) : subLoop a = a := by
  rw [subLoop]
  simp [h]

lemma addLoop_of_lt (a : ℝ) (h : a < -Real.pi) :
    addLoop a = addLoop (a + 2 * Real.pi) := by
  rw [addLoop]
  simp [h]

lemma addLoop_of_ge (a : ℝ) (h : ¬ a < -Real.pi) : addLoop a = a := by
  rw [addLoop]
  simp [h]

lemma subLoop_le (a : ℝ) : subLoop a ≤ Real.pi := by
  induction a using subLoop.induct with
  | case1 a h ih =>
      rw [subLoop_of_gt a h]
      exact ih
  | case2 a h =>
      rw [subLoop_of_le a h]
      exact not_lt.mp h

lemma addLoop_ge (a : ℝ) : -Real.pi ≤ addLoop a := by
  induction a using addLoop.induct with
  | case1 a h ih =>
      rw [addLoop_of_lt a h]
      exact ih
  | case2 a h =>
      rw [addLoop_of_ge a h]
      exact not_lt.mp h

lemma addLoop_le (a : ℝ) : a ≤ Real.pi → addLoop a ≤ Real.pi := by
  induction a using addLoop.induct with
  | case1 a h ih =>
      intro _
      rw [addLoop_of_lt a h]
      exact ih (by linarith [Real.pi_pos])
  | case2 a h =>
      intro ha
      rw [addLoop_of_ge a h]
      exact ha

lemma normalizeAngle_ge (a : ℝ) : -Real.pi ≤ normalizeAngle a :=
  addLoop_ge (subLoop a)

lemma normalizeAngle_le (a : ℝ) : normalizeAngle a ≤ Real.pi :=
  addLoop_le (subLoop a) (subLoop_le a)

lemma normalizeAngle_eq_self (a : ℝ) (h1 : -Real.pi ≤ a)
    (h2 : a ≤ Real.pi) : normalizeAngle a = a := by
  unfold normalizeAngle
  rw [subLoop_of_le a (not_lt.mpr h2), addLoop_of_ge a (not_lt.mpr h1)]

lemma subLoopFuel_exists (a : ℝ) :
    ∃ n, subLoopFuel n a = some (subLoop a) := by
  induction a using subLoop.induct with
  | case1 a h ih =>
      obtain ⟨n, hn⟩ := ih
      refine ⟨n + 1, ?_⟩
      rw [subLoop_of_gt a h]
      simpa [subLoopFuel, h] using hn
  | case2 a h =>
      refine ⟨0, ?_⟩
      rw [subLoop_of_le a h]
      simp [subLoopFuel, h]

lemma addLoopFuel_exists (a : ℝ) :
    ∃ n, addLoopFuel n a = some (addLoop a) := by
  induction a using addLoop.induct with
  | case1 a h ih =>
      obtain ⟨n, hn⟩ := ih
      refine ⟨n + 1, ?_⟩
      rw [addLoop_of_lt a h]
      simpa [addLoopFuel, h] using hn
  | case2 a h =>
      refine ⟨0, ?_⟩
      rw [addLoop_of_ge a h]
      simp [addLoopFuel, h]

/-- True wind speed collapses to the apparent wind speed whenever the
effective speed over ground is zero, in particular when anchored. -/
lemma trueWindSpeed_anchored (s : VesselState) (a : ApparentWind)
    (h : s.anchorSet = true) (hw : 0 ≤ a.windSpeed) :
    trueWindSpeed s a = a.windSpeed := by
  unfold trueWindSpeed Wx Wy Ax Ay Vx Vy
  rw [effectiveSOG, if_pos h]
  simp only [zero_mul, add_zero]
  have hsum : a.windSpeed * Real.cos a.apparentTrueRad *
        (a.windSpeed * Real.cos a.apparentTrueRad)
      + a.windSpeed * Real.sin a.apparentTrueRad *
        (a.windSpeed * Real.sin a.apparentTrueRad)
      = a.windSpeed ^ 2 := by
    linear_combination a.windSpeed ^ 2 *
      Real.sin_sq_add_cos_sq a.apparentTrueRad
  rw [hsum, Real.sqrt_sq hw]

/-- Compass bearing of the atan2 of a polar vector with positive radius
and bearing in the compass range: the bearing itself comes back. -/
lemma toCompassBearing_atan2_polar (r b : ℝ) (hr : 0 < r) (hb0 : 0 ≤ b)
    (hb : b < 2 * Real.pi) :
    toCompassBearing (atan2 (r * Real.sin b) (r * Real.cos b)) = b := by
  by_cases hbp : b ≤ Real.pi
  · have h1 : ((r * Real.cos b : ℝ) : ℂ) + ((r * Real.sin b : ℝ) : ℂ)
        * Complex.I
        = (r : ℂ) * (Complex.cos (b : ℂ) + Complex.sin (b : ℂ)
          * Complex.I) := by
      rw [← Complex.ofReal_cos, ← Complex.ofReal_sin]
      push_cast
      ring
    have h2 : atan2 (r * Real.sin b) (r * Real.cos b) = b := by
      rw [atan2, h1]
      exact Complex.arg_mul_cos_add_sin_mul_I hr
        ⟨by linarith [Real.pi_pos], hbp⟩
    rw [h2, toCompassBearing, if_neg (not_lt.mpr hb0)]
  · have hcs : Real.cos b = Real.cos (b - 2 * Real.pi) :=
      (Real.cos_sub_two_pi b).symm
    have hss : Real.sin b = Real.sin (b - 2 * Real.pi) :=
      (Real.sin_sub_two_pi b).symm
    have h1 : ((r * Real.cos b : ℝ) : ℂ) + ((r * Real.sin b : ℝ) : ℂ)
        * Complex.I
        = (r : ℂ) * (Complex.cos ((b - 2 * Real.pi : ℝ) : ℂ)
          + Complex.sin ((b - 2 * Real.pi : ℝ) : ℂ) * Complex.I) := by
      rw [← Complex.ofReal_cos, ← Complex.ofReal_sin, ← hcs, ← hss]
      push_cast
      ring
    have h2 : atan2 (r * Real.sin b) (r * Real.cos b)
        = b - 2 * Real.pi := by
      rw [atan2, h1]
      exact Complex.arg_mul_cos_add_sin_mul_I hr
        ⟨by linarith [not_le.mp hbp], by linarith [Real.pi_pos]⟩
    rw [h2, toCompassBearing, if_pos (by linarith)]
    ring

/-- Apparent wind record with a given speed, zero bearings and a supplied
relative angle of zero, as produced for a dead-ahead sample. -/
noncomputable def awZero (ws : ℝ) : ApparentWind :=
  ApparentWind.mk ws 0 (some 0) 0 0 0 0 0

/-- Anchored vessel state with anchor bearing zero and a given tracked
air temperature. -/
noncomputable def vsAnchored (temp : ℝ) : VesselState :=
  VesselState.mk 0 0 none 0 temp 0 true 0

/-- Vessel state with heading magnetic 0 and course over ground magnetic
present and equal to pi over 2 radians (90 degrees). -/
noncomputable def vsCog : VesselState :=
  VesselState.mk 0 0 (some (Real.pi / 2)) 0 0 0 false 0

/-- Wind sample dead ahead with unit speed and no temperature. -/
noncomputable def wdAhead : WindData := WindData.mk 0 1 none

/-- C1: the claim says the magnetic-frame calculations use
courseOverGroundMagnetic when it is present.  The source computes the
preferred value (useDirection, and courseOverGroundMagneticDeg in the
resolver) but never uses it: with heading magnetic 0 and course over
ground magnetic 90 degrees, the resolver returns a magnetic bearing of 0
degrees where the claim requires 90, and the solver output does not
depend on courseOverGroundMagnetic at all. -/
theorem cog_preference_dead_code :
    useDirection vsCog = Real.pi / 2
    ∧ (calculateApparentWind vsCog wdAhead).apparentMagneticDeg = 0
    ∧ jsMod (radToDeg (Real.pi / 2) + wdAhead.windDirection) 360 = 90
    ∧ ((0 : ℝ) ≠ 90)
    ∧ (∀ (c1 c2 : Option ℝ) (h1 h2 sog airT hum : ℝ) (anc : Bool)
        (ab : ℝ) (a : ApparentWind) (t : String),
        calculateDerivedWindValues
            (VesselState.mk h1 h2 c1 sog airT hum anc ab) a t
          = calculateDerivedWindValues
            (VesselState.mk h1 h2 c2 sog airT hum anc ab) a t) := by
  refine ⟨rfl, ?_, ?_, by norm_num, ?_⟩
  · show jsMod (radToDeg (0:ℝ) + (0:ℝ)) 360 = 0
    rw [radToDeg, jsMod, jsTrunc]
    norm_num
  · have hr : radToDeg (Real.pi / 2) = 90 := by
      rw [radToDeg]
      have hpi := Real.pi_ne_zero
      field_simp
      ring
    show jsMod (radToDeg (Real.pi / 2) + (0:ℝ)) 360 = 90
    rw [hr, jsMod, jsTrunc]
    norm_num
  · intro c1 c2 h1 h2 sog airT hum anc ab a t
    rfl

/-- C2 counterexample: the claim says normalizeAngle maps an input of
minus pi to plus pi and never returns minus pi; in the source both while
conditions are strict, so minus pi is returned unchanged. -/
theorem normalizeAngle_neg_pi_fixed :
    normalizeAngle (-Real.pi) = -Real.pi
    ∧ normalizeAngle (-Real.pi) ≠ Real.pi := by
  have h := normalizeAngle_eq_self (-Real.pi) le_rfl
    (by linarith [Real.pi_pos])
  refine ⟨h, ?_⟩
  rw [h]
  intro hc
  have := Real.pi_pos
  linarith

/-- C2 amended: normalizeAngle always returns a value in the closed
interval from minus pi to pi; plus pi is a fixed point and minus pi is
also a fixed point (it is not mapped to plus pi). -/
theorem normalizeAngle_closed_range :
    (∀ a : ℝ, -Real.pi ≤ normalizeAngle a ∧ normalizeAngle a ≤ Real.pi)
    ∧ normalizeAngle Real.pi = Real.pi
    ∧ normalizeAngle (-Real.pi) = -Real.pi := by
  refine ⟨fun a => ⟨normalizeAngle_ge a, normalizeAngle_le a⟩, ?_, ?_⟩
  · exact normalizeAngle_eq_self Real.pi (by linarith [Real.pi_pos]) le_rfl
  · exact normalizeAngle_eq_self (-Real.pi) le_rfl (by linarith [Real.pi_pos])

/-- C3 counterexample: two calls of calculateDerivedWindValues with
identical apparent wind and vessel state but different wall-clock
readings return records that are not identical, because the timestamp
field records the clock. -/
theorem derived_record_timestamp_differs :
    calculateDerivedWindValues (vsAnchored 300) (awZero 1) "t1"
      ≠ calculateDerivedWindValues (vsAnchored 300) (awZero 1) "t2" := by
  intro h
  have ht : ("t1" : String) = "t2" := congrArg DerivedWind.timestamp h
  exact absurd ht (by decide)

/-- C3 amended: every field of the result except the timestamp is a
deterministic function of the apparent wind record and the vessel state
snapshot; only the timestamp depends on the wall clock. -/
theorem derived_fields_deterministic :
    ∀ (s : VesselState) (a : ApparentWind) (t1 t2 : String),
      (calculateDerivedWindValues s a t1).speedApparent
          = (calculateDerivedWindValues s a t2).speedApparent
      ∧ (calculateDerivedWindValues s a t1).angleApparent
          = (calculateDerivedWindValues s a t2).angleApparent
      ∧ (calculateDerivedWindValues s a t1).angleTrueGround
          = (calculateDerivedWindValues s a t2).angleTrueGround
      ∧ (calculateDerivedWindValues s a t1).angleTrueWater
          = (calculateDerivedWindValues s a t2).angleTrueWater
      ∧ (calculateDerivedWindValues s a t1).directionTrue
          = (calculateDerivedWindValues s a t2).directionTrue
      ∧ (calculateDerivedWindValues s a t1).directionMagnetic
          = (calculateDerivedWindValues s a t2).directionMagnetic
      ∧ (calculateDerivedWindValues s a t1).speedTrue
          = (calculateDerivedWindValues s a t2).speedTrue
      ∧ (calculateDerivedWindValues s a t1).windChill
          = (calculateDerivedWindValues s a t2).windChill
      ∧ (calculateDerivedWindValues s a t1).heatIndex
          = (calculateDerivedWindValues s a t2).heatIndex
      ∧ (calculateDerivedWindValues s a t1).feelsLike
          = (calculateDerivedWindValues s a t2).feelsLike
      ∧ (calculateDerivedWindValues s a t1).source
          = (calculateDerivedWindValues s a t2).source := by
  intro s a t1 t2
  exact ⟨rfl, rfl, rfl, rfl, rfl, rfl, rfl, rfl, rfl, rfl, rfl⟩

/-- C9: normalizeAngle terminates for every input: for every angle there
is a finite fuel under which the step-indexed loops finish and return
the value of normalizeAngle. -/
theorem normalizeAngle_terminates :
    ∀ a : ℝ, ∃ n m, normalizeAngleFuel n m a = some (normalizeAngle a) := by
  intro a
  obtain ⟨n, hn⟩ := subLoopFuel_exists a
  obtain ⟨m, hm⟩ := addLoopFuel_exists (subLoop a)
  refine ⟨n, m, ?_⟩
  rw [normalizeAngleFuel, hn]
  simpa [normalizeAngle] using hm

/-- C10: the airTemperature field of the apparent wind record has no
effect on the solver: two records differing only in that field produce
identical outputs (the comfort metrics read the tracked temperature). -/
theorem air_temperature_field_unused :
    ∀ (s : VesselState) (t : String)
      (ws war atd amd atr amr temp1 temp2 : ℝ) (warr : Option ℝ),
      calculateDerivedWindValues s
          (ApparentWind.mk ws war warr atd amd atr amr temp1) t
        = calculateDerivedWindValues s
          (ApparentWind.mk ws war warr atd amd atr amr temp2) t := by
  intro s t ws war atd amd atr amr temp1 temp2 warr
  rfl

/-- C4: when anchored, the solver forces the effective speed over ground
to zero and both effective headings to the stored anchor bearing
(regardless of the stored headings, speed and course, as the quantified
conjunct shows), so the true wind speed equals the apparent wind speed
for every sample, and when the apparent bearings equal the anchored
bearing the true wind directions equal the apparent bearings exactly. -/
theorem anchored_forces_true_wind :
    ∀ (s : VesselState) (a : ApparentWind) (t : String),
      s.anchorSet = true →
      (effectiveSOG s = 0
        ∧ effectiveHeadingTrueRad s = s.anchorApparentBearing
        ∧ effectiveHeadingMagneticRad s = s.anchorApparentBearing)
      ∧ (∀ (h1 h2 sog : ℝ) (c : Option ℝ),
          calculateDerivedWindValues
              (VesselState.mk h1 h2 c sog s.airTemp s.humidity true
                s.anchorApparentBearing) a t
            = calculateDerivedWindValues
              (VesselState.mk s.headingTrue s.headingMagnetic
                s.courseOverGroundMagnetic s.speedOverGround s.airTemp
                s.humidity true s.anchorApparentBearing) a t)
      ∧ (0 ≤ a.windSpeed →
          (calculateDerivedWindValues s a t).speedTrue = a.windSpeed)
      ∧ (0 < a.windSpeed →
          a.apparentTrueRad = s.anchorApparentBearing →
          a.apparentMagneticRad = s.anchorApparentBearing →
          0 ≤ s.anchorApparentBearing →
          s.anchorApparentBearing < 2 * Real.pi →
          (calculateDerivedWindValues s a t).directionTrue
              = a.apparentTrueRad
          ∧ (calculateDerivedWindValues s a t).directionMagnetic
              = a.apparentMagneticRad) := by
  intro s a t h
  refine ⟨⟨?_, ?_, ?_⟩, ?_, ?_, ?_⟩
  · rw [effectiveSOG, if_pos h]
  · rw [effectiveHeadingTrueRad, if_pos h]
  · rw [effectiveHeadingMagneticRad, if_pos h]
  · intro h1 h2 sog c
    rfl
  · intro hw
    have hsp : (calculateDerivedWindValues s a t).speedTrue
        = trueWindSpeed s a := rfl
    rw [hsp]
    exact trueWindSpeed_anchored s a h hw
  · intro hws hta hma hb0 hb
    constructor
    · have hd : (calculateDerivedWindValues s a t).directionTrue
          = trueWindDirTrueRad s a := rfl
      have hWx : Wx s a = a.windSpeed * Real.cos a.apparentTrueRad := by
        rw [Wx, Ax, Vx, effectiveSOG, if_pos h]
        ring
      have hWy : Wy s a = a.windSpeed * Real.sin a.apparentTrueRad := by
        rw [Wy, Ay, Vy, effectiveSOG, if_pos h]
        ring
      rw [hd, trueWindDirTrueRad, rawTrueDirection, hWx, hWy]
      exact toCompassBearing_atan2_polar a.windSpeed a.apparentTrueRad hws
        (hta ▸ hb0) (hta ▸ hb)
    · have hd : (calculateDerivedWindValues s a t).directionMagnetic
          = trueWindDirMagRad s a := rfl
      have hWx : WxMag s a
          = a.windSpeed * Real.cos a.apparentMagneticRad := by
        rw [WxMag, AxMag, VxMag, effectiveSOG, if_pos h]
        ring
      have hWy : WyMag s a
          = a.windSpeed * Real.sin a.apparentMagneticRad := by
        rw [WyMag, AyMag, VyMag, effectiveSOG, if_pos h]
        ring
      rw [hd, trueWindDirMagRad, rawMagneticDirection, hWx, hWy]
      exact toCompassBearing_atan2_polar a.windSpeed a.apparentMagneticRad
        hws (hma ▸ hb0) (hma ▸ hb)

/-- C4 witness: concrete anchored state with anchor bearing zero, stored
speed over ground 10 and a dead-ahead sample of speed 2: the true wind
speed is 2 and both true wind directions are 0. -/
theorem anchored_forces_true_wind_witness :
    (VesselState.mk 3 4 none 10 300 50 true 0).anchorSet = true
    ∧ ((0:ℝ) ≤ (awZero 2).windSpeed)
    ∧ (calculateDerivedWindValues (VesselState.mk 3 4 none 10 300 50 true 0)
        (awZero 2) "t").speedTrue = 2
    ∧ (calculateDerivedWindValues (VesselState.mk 3 4 none 10 300 50 true 0)
        (awZero 2) "t").directionTrue = 0 := by
  have h := anchored_forces_true_wind
    (VesselState.mk 3 4 none 10 300 50 true 0) (awZero 2) "t" rfl
  have hws : (0:ℝ) ≤ (awZero 2).windSpeed := by
    show (0:ℝ) ≤ 2
    norm_num
  refine ⟨rfl, hws, ?_, ?_⟩
  · have := h.2.2.1 hws
    exact this
  · have := (h.2.2.2 (by show (0:ℝ) < 2; norm_num) rfl rfl le_rfl
      Real.two_pi_pos).1
    exact this

/-- C5: the wind chill output is present exactly when the tracked air
temperature in Celsius is at most 10 and the true wind speed in km/h
exceeds 4.8, and in that case it is the Environment-Canada formula
shifted back to kelvin; outside the guard it is null. -/
theorem wind_chill_guard :
    ∀ (s : VesselState) (a : ApparentWind) (t : String),
      ((calculateDerivedWindValues s a t).windChill ≠ none ↔
        (airTempC s ≤ 10
          ∧ (calculateDerivedWindValues s a t).speedTrue * 3.6 > 4.8))
      ∧ (airTempC s ≤ 10 →
          (calculateDerivedWindValues s a t).speedTrue * 3.6 > 4.8 →
          (calculateDerivedWindValues s a t).windChill
            = some (13.12 + 0.6215 * airTempC s
              - 11.37 * Real.rpow
                  ((calculateDerivedWindValues s a t).speedTrue * 3.6) 0.16
              + 0.3965 * airTempC s * Real.rpow
                  ((calculateDerivedWindValues s a t).speedTrue * 3.6) 0.16
              + 273.15)) := by
  intro s a t
  have hwc : (calculateDerivedWindValues s a t).windChill
      = windChillK s a := rfl
  have hsp : (calculateDerivedWindValues s a t).speedTrue
      = trueWindSpeed s a := rfl
  have hk : windSpeedKmh s a = trueWindSpeed s a * 3.6 := rfl
  rw [hwc, hsp, ← hk]
  constructor
  · by_cases hg : airTempC s ≤ 10 ∧ windSpeedKmh s a > 4.8
    · rw [windChillK, if_pos hg]
      simp [hg]
    · rw [windChillK, if_neg hg]
      simp [hg]
  · intro h1 h2
    rw [windChillK, if_pos ⟨h1, h2⟩]

/-- C5 witness: anchored state at 283.15 kelvin (10 Celsius) with a
dead-ahead sample of 1.5 metres per second: the true wind speed is 1.5,
5.4 km/h exceeds 4.8, and the wind chill is present with the formula
value; at 1.3 metres per second (4.68 km/h) the wind chill is null. -/
theorem wind_chill_guard_witness :
    airTempC (vsAnchored 283.15) ≤ 10
    ∧ (calculateDerivedWindValues (vsAnchored 283.15) (awZero 1.5)
        "t").speedTrue * 3.6 > 4.8
    ∧ (calculateDerivedWindValues (vsAnchored 283.15) (awZero 1.5)
        "t").windChill
      = some (13.12 + 0.6215 * airTempC (vsAnchored 283.15)
        - 11.37 * Real.rpow
            ((calculateDerivedWindValues (vsAnchored 283.15) (awZero 1.5)
              "t").speedTrue * 3.6) 0.16
        + 0.3965 * airTempC (vsAnchored 283.15) * Real.rpow
            ((calculateDerivedWindValues (vsAnchored 283.15) (awZero 1.5)
              "t").speedTrue * 3.6) 0.16
        + 273.15)
    ∧ (calculateDerivedWindValues (vsAnchored 283.15) (awZero 1.3)
        "t").windChill = none := by
  have hsp : (calculateDerivedWindValues (vsAnchored 283.15) (awZero 1.5)
      "t").speedTrue = 1.5 := by
    have h0 : (calculateDerivedWindValues (vsAnchored 283.15) (awZero 1.5)
        "t").speedTrue = trueWindSpeed (vsAnchored 283.15) (awZero 1.5) :=
      rfl
    rw [h0, trueWindSpeed_anchored (vsAnchored 283.15) (awZero 1.5) rfl
      (by show (0:ℝ) ≤ 1.5; norm_num)]
    show (1.5:ℝ) = 1.5
    norm_num
  have hsp13 : (calculateDerivedWindValues (vsAnchored 283.15) (awZero 1.3)
      "t").speedTrue = 1.3 := by
    have h0 : (calculateDerivedWindValues (vsAnchored 283.15) (awZero 1.3)
        "t").speedTrue = trueWindSpeed (vsAnchored 283.15) (awZero 1.3) :=
      rfl
    rw [h0, trueWindSpeed_anchored (vsAnchored 283.15) (awZero 1.3) rfl
      (by show (0:ℝ) ≤ 1.3; norm_num)]
    show (1.3:ℝ) = 1.3
    norm_num
  have h1 : airTempC (vsAnchored 283.15) ≤ 10 := by
    show (283.15:ℝ) - 273.15 ≤ 10
    norm_num
  have h2 : (calculateDerivedWindValues (vsAnchored 283.15) (awZero 1.5)
      "t").speedTrue * 3.6 > 4.8 := by
    rw [hsp]
    norm_num
  refine ⟨h1, h2, (wind_chill_guard (vsAnchored 283.15) (awZero 1.5)
    "t").2 h1 h2, ?_⟩
  have hiff := (wind_chill_guard (vsAnchored 283.15) (awZero 1.3) "t").1
  rcases hopt : (calculateDerivedWindValues (vsAnchored 283.15)
      (awZero 1.3) "t").windChill with _ | v
  · rfl
  · exfalso
    have hcond := hiff.mp (by simp [hopt])
    rw [hsp13] at hcond
    have : (1.3:ℝ) * 3.6 > 4.8 := hcond.2
    norm_num at this

/-- C6: the heat index output is present exactly when the tracked air
temperature in Fahrenheit is at least 80 and the tracked humidity is at
least 40, and in that case it is the Rothfusz regression converted back
to kelvin; outside the guard it is null. -/
theorem heat_index_guard :
    ∀ (s : VesselState) (a : ApparentWind) (t : String),
      ((calculateDerivedWindValues s a t).heatIndex ≠ none ↔
        (airTempF s ≥ 80 ∧ s.humidity ≥ 40))
      ∧ (airTempF s ≥ 80 → s.humidity ≥ 40 →
          (calculateDerivedWindValues s a t).heatIndex
            = some ((-42.379 + 2.04901523 * airTempF s
              + 10.14333127 * s.humidity
              - 0.22475541 * airTempF s * s.humidity
              - 0.00683783 * airTempF s * airTempF s
              - 0.05481717 * s.humidity * s.humidity
              + 0.00122874 * airTempF s * airTempF s * s.humidity
              + 0.00085282 * airTempF s * s.humidity * s.humidity
              - 0.00000199 * airTempF s * airTempF s * s.humidity
                * s.humidity
              - 32) * 5 / 9 + 273.15)) := by
  intro s a t
  have hhi : (calculateDerivedWindValues s a t).heatIndex
      = heatIndexK s := rfl
  rw [hhi]
  constructor
  · by_cases hg : airTempF s ≥ 80 ∧ s.humidity ≥ 40
    · rw [heatIndexK, if_pos hg]
      simp [hg]
    · rw [heatIndexK, if_neg hg]
      simp [hg]
  · intro h1 h2
    rw [heatIndexK, if_pos ⟨h1, h2⟩]

/-- C6 witness: with tracked temperature 80 Fahrenheit (80 over 3 plus
273.15 kelvin) and humidity 40 the heat index is present; with humidity
39 it is null. -/
theorem heat_index_guard_witness :
    airTempF (VesselState.mk 0 0 none 0 (80 / 3 + 273.15) 40 false 0) ≥ 80
    ∧ (VesselState.mk 0 0 none 0 (80 / 3 + 273.15) 40 false 0).humidity ≥ 40
    ∧ (calculateDerivedWindValues
        (VesselState.mk 0 0 none 0 (80 / 3 + 273.15) 40 false 0)
        (awZero 1) "t").heatIndex
      = some ((-42.379 + 2.04901523
          * airTempF (VesselState.mk 0 0 none 0 (80 / 3 + 273.15) 40 false 0)
        + 10.14333127 * 40
        - 0.22475541
          * airTempF (VesselState.mk 0 0 none 0 (80 / 3 + 273.15) 40 false 0)
          * 40
        - 0.00683783
          * airTempF (VesselState.mk 0 0 none 0 (80 / 3 + 273.15) 40 false 0)
          * airTempF (VesselState.mk 0 0 none 0 (80 / 3 + 273.15) 40 false 0)
        - 0.05481717 * 40 * 40
        + 0.00122874
          * airTempF (VesselState.mk 0 0 none 0 (80 / 3 + 273.15) 40 false 0)
          * airTempF (VesselState.mk 0 0 none 0 (80 / 3 + 273.15) 40 false 0)
          * 40
        + 0.00085282
          * airTempF (VesselState.mk 0 0 none 0 (80 / 3 + 273.15) 40 false 0)
          * 40 * 40
        - 0.00000199
          * airTempF (VesselState.mk 0 0 none 0 (80 / 3 + 273.15) 40 false 0)
          * airTempF (VesselState.mk 0 0 none 0 (80 / 3 + 273.15) 40 false 0)
          * 40 * 40
        - 32) * 5 / 9 + 273.15)
    ∧ (calculateDerivedWindValues
        (VesselState.mk 0 0 none 0 (80 / 3 + 273.15) 39 false 0)
        (awZero 1) "t").heatIndex = none := by
  have h1 : airTempF (VesselState.mk 0 0 none 0 (80 / 3 + 273.15) 40
      false 0) ≥ 80 := by
    show ((80 / 3 + 273.15:ℝ) - 273.15) * 9 / 5 + 32 ≥ 80
    norm_num
  have h2 : (VesselState.mk 0 0 none 0 (80 / 3 + 273.15) 40 false
      0).humidity ≥ (40:ℝ) := le_rfl
  refine ⟨h1, h2, (heat_index_guard
    (VesselState.mk 0 0 none 0 (80 / 3 + 273.15) 40 false 0)
    (awZero 1) "t").2 h1 h2, ?_⟩
  have hiff := (heat_index_guard
    (VesselState.mk 0 0 none 0 (80 / 3 + 273.15) 39 false 0)
    (awZero 1) "t").1
  rcases hopt : (calculateDerivedWindValues
      (VesselState.mk 0 0 none 0 (80 / 3 + 273.15) 39 false 0)
      (awZero 1) "t").heatIndex with _ | v
  · rfl
  · exfalso
    have hcond := hiff.mp (by simp [hopt])
    have : (39:ℝ) ≥ 40 := hcond.2
    norm_num at this

/-- C7: the feels-like output equals the wind chill when the wind chill
is present and the Celsius temperature is at most 10; otherwise it
equals the heat index when that is present and the Celsius temperature
is at least 27; otherwise it equals the raw tracked temperature. -/
theorem feels_like_selection :
    ∀ (s : VesselState) (a : ApparentWind) (t : String),
      (∀ w, (calculateDerivedWindValues s a t).windChill = some w →
          airTempC s ≤ 10 →
          (calculateDerivedWindValues s a t).feelsLike = w)
      ∧ (((calculateDerivedWindValues s a t).windChill = none
            ∨ ¬ airTempC s ≤ 10) →
          ∀ hi, (calculateDerivedWindValues s a t).heatIndex = some hi →
            airTempC s ≥ 27 →
            (calculateDerivedWindValues s a t).feelsLike = hi)
      ∧ (((calculateDerivedWindValues s a t).windChill = none
            ∨ ¬ airTempC s ≤ 10) →
          ((calculateDerivedWindValues s a t).heatIndex = none
            ∨ ¬ airTempC s ≥ 27) →
          (calculateDerivedWindValues s a t).feelsLike = s.airTemp) := by
  intro s a t
  have hfl : (calculateDerivedWindValues s a t).feelsLike
      = feelsLikeK s a := rfl
  have hwc : (calculateDerivedWindValues s a t).windChill
      = windChillK s a := rfl
  have hhi : (calculateDerivedWindValues s a t).heatIndex
      = heatIndexK s := rfl
  rw [hfl, hwc, hhi]
  refine ⟨?_, ?_, ?_⟩
  · intro w hw hT
    rw [feelsLikeK, hw]
    simp [hT]
  · intro hcond hi hhis hT
    have hfirst : ¬ ((windChillK s a).isSome ∧ airTempC s ≤ 10) := by
      rcases hcond with hn | hT10
      · simp [hn]
      · tauto
    rw [feelsLikeK, if_neg hfirst, hhis]
    simp [hT]
  · intro hcond1 hcond2
    have hfirst : ¬ ((windChillK s a).isSome ∧ airTempC s ≤ 10) := by
      rcases hcond1 with hn | hT10
      · simp [hn]
      · tauto
    have hsecond : ¬ ((heatIndexK s).isSome ∧ airTempC s ≥ 27) := by
      rcases hcond2 with hn | hT27
      · simp [hn]
      · tauto
    rw [feelsLikeK, if_neg hfirst, if_neg hsecond]

/-- C7 witness: at 293.15 kelvin (20 Celsius, inside the neutral band)
neither guard applies and the feels-like output is the raw tracked
temperature. -/
theorem feels_like_selection_witness :
    ¬ airTempC (VesselState.mk 0 0 none 0 293.15 50 false 0) ≤ 10
    ∧ ¬ airTempC (VesselState.mk 0 0 none 0 293.15 50 false 0) ≥ 27
    ∧ (calculateDerivedWindValues
        (VesselState.mk 0 0 none 0 293.15 50 false 0)
        (awZero 1.5) "t").feelsLike = 293.15 := by
  have h1 : ¬ airTempC (VesselState.mk 0 0 none 0 293.15 50 false 0)
      ≤ 10 := by
    show ¬ ((293.15:ℝ) - 273.15 ≤ 10)
    norm_num
  have h2 : ¬ airTempC (VesselState.mk 0 0 none 0 293.15 50 false 0)
      ≥ 27 := by
    show ¬ ((293.15:ℝ) - 273.15 ≥ 27)
    norm_num
  refine ⟨h1, h2, ?_⟩
  have := (feels_like_selection
    (VesselState.mk 0 0 none 0 293.15 50 false 0) (awZero 1.5) "t").2.2
    (Or.inr h1) (Or.inr h2)
  exact this

/-- C8 counterexample: the claim says a supplied relative angle of zero
is used as the apparent angle output (normalized, hence zero).  With a
supplied angle of zero and a true-frame bearing of pi over 2 on a vessel
with heading zero, the source instead takes the fallback branch and
returns pi over 2, which is not zero. -/
theorem supplied_relative_angle_zero_cex :
    (calculateDerivedWindValues (VesselState.mk 0 0 none 0 0 0 false 0)
        (ApparentWind.mk 1 0 (some 0) 0 0 (Real.pi / 2) 0 0)
        "t").angleApparent = Real.pi / 2
    ∧ normalizeAngle 0 = 0
    ∧ (Real.pi / 2 : ℝ) ≠ 0 := by
  refine ⟨?_, ?_, ?_⟩
  · have haa : (calculateDerivedWindValues
        (VesselState.mk 0 0 none 0 0 0 false 0)
        (ApparentWind.mk 1 0 (some 0) 0 0 (Real.pi / 2) 0 0)
        "t").angleApparent
        = angleApparent (VesselState.mk 0 0 none 0 0 0 false 0)
          (ApparentWind.mk 1 0 (some 0) 0 0 (Real.pi / 2) 0 0) := rfl
    rw [haa, angleApparent]
    have hor : jsOrReal (ApparentWind.mk 1 0 (some 0) 0 0 (Real.pi / 2)
          0 0).windAngleRelativeRad
        ((ApparentWind.mk 1 0 (some 0) 0 0 (Real.pi / 2) 0
          0).apparentTrueRad
          - effectiveHeadingTrueRad (VesselState.mk 0 0 none 0 0 0 false 0))
        = Real.pi / 2 := by
      show jsOrReal (some 0) (Real.pi / 2
        - effectiveHeadingTrueRad (VesselState.mk 0 0 none 0 0 0 false 0))
        = Real.pi / 2
      rw [jsOrReal]
      simp [effectiveHeadingTrueRad]
    rw [hor]
    exact normalizeAngle_eq_self (Real.pi / 2)
      (by linarith [Real.pi_pos]) (by linarith [Real.pi_pos])
  · exact normalizeAngle_eq_self 0 (by linarith [Real.pi_pos])
      (by linarith [Real.pi_pos])
  · exact ne_of_gt (by positivity)

/-- C8 amended: the solver uses the supplied relative angle (normalized)
exactly when it is present and nonzero; when it is absent or equal to
zero it falls back to normalizing the difference between the true-frame
bearing and the effective true heading. -/
theorem supplied_relative_angle_truthy :
    ∀ (s : VesselState) (a : ApparentWind) (t : String),
      (∀ v : ℝ, a.windAngleRelativeRad = some v → v ≠ 0 →
          (calculateDerivedWindValues s a t).angleApparent
            = normalizeAngle v)
      ∧ ((a.windAngleRelativeRad = none
            ∨ a.windAngleRelativeRad = some 0) →
          (calculateDerivedWindValues s a t).angleApparent
            = normalizeAngle (a.apparentTrueRad
              - effectiveHeadingTrueRad s)) := by
  intro s a t
  have haa : (calculateDerivedWindValues s a t).angleApparent
      = angleApparent s a := rfl
  constructor
  · intro v hv hv0
    rw [haa, angleApparent, hv]
    simp [jsOrReal, hv0]
  · intro hcase
    rcases hcase with hc | hc <;> rw [haa, angleApparent, hc] <;>
      simp [jsOrReal]

/-- C8 witness: a supplied nonzero relative angle of 1 radian is used:
the apparent angle output is normalizeAngle 1. -/
theorem supplied_relative_angle_truthy_witness :
    (ApparentWind.mk 1 0 (some 1) 0 0 0 0 0).windAngleRelativeRad
      = some 1
    ∧ ((1:ℝ) ≠ 0)
    ∧ (calculateDerivedWindValues (VesselState.mk 0 0 none 0 0 0 false 0)
        (ApparentWind.mk 1 0 (some 1) 0 0 0 0 0) "t").angleApparent
      = normalizeAngle 1 :=
  ⟨rfl, by norm_num,
    (supplied_relative_angle_truthy (VesselState.mk 0 0 none 0 0 0 false 0)
      (ApparentWind.mk 1 0 (some 1) 0 0 0 0 0) "t").1 1 rfl (by norm_num)⟩

end WindCalculations
